import Mathlib

/-!
Verification of the display-metrics resolution and drawing logic of the
on-screen ruler application (ruler.py). Floating-point arithmetic is
modelled over ℚ; the fallible platform queries (physical display size,
native pixel width, backing-store conversion) are modelled as `Option`
valued fields of a display environment.
-/

/-- Fallback pixel density used when the physical mm size is unavailable. -/
def FALLBACK_PPI : ℚ := 254.0

/-- Millimeters per inch. -/
def MM_PER_INCH : ℚ := 25.4

/-- Ruler length in millimeters (15 cm). -/
def RULER_LENGTH_MM : ℕ := 150

/-- Horizontal margin in points on each side of the ruler. -/
def MARGIN_PT : ℚ := 20.0

/-- Fixed content height in points. -/
def CONTENT_H_PT : ℚ := 90.0

/-- Baseline y coordinate in points. -/
def BASELINE_Y_PT : ℚ := 28.0

/-- Height of a minor tick. -/
def TICK_SMALL_PT : ℚ := 10.0

/-- Height of a medium tick. -/
def TICK_MED_PT : ℚ := 18.0

/-- Height of a major tick. -/
def TICK_LARGE_PT : ℚ := 28.0

/-- A screen, reduced to the one datum the resolver reads from it: the
display id reported under NSScreenNumber (`none` when the conversion to
int fails, mirroring `_display_id_for_screen` returning None). -/
structure Screen where
  displayId : Option ℤ
deriving Repr, DecidableEq

/-- The display context visible to `recomputeAndResize`:
whether the view is attached to a window, that window's screen,
the main screen, the two per-display queries (`CGDisplayScreenSize`
width and the display mode's pixel width; `none` models a raised
exception), and the width of the rect returned by
`convertRectToBacking_` for a 200-point-wide rect (`none` models a
raised exception). -/
structure DisplayEnv where
  hasWindow : Bool
  winScreen : Option Screen
  mainScreen : Option Screen
  sizeQuery : ℤ → Option ℚ
  pixelQuery : ℤ → Option ℚ
  backingWidth : Option ℚ

/-- The mutable state of the view: `self._points_per_mm` and
`self._error_text`. -/
structure RulerState where
  points_per_mm : ℚ
  error_text : Option String
deriving Repr, DecidableEq

/-- State established by `initWithFrame_`. -/
def initWithFrame : RulerState := { points_per_mm := 5.0, error_text := none }

/-- A ScaleState is degraded exactly when an error note is present. -/
def degraded (s : RulerState) : Bool := s.error_text.isSome

/-- The note set when the physical mm size is unavailable. -/
def fallbackNote : String :=
  "Note: Using fallback PPI (system didn’t report physical mm size)."

/-- The note appended when the backing-store conversion is unavailable. -/
def backingNote : String := " (Also fell back to pixels/point=2.0.)"

/-- `screen = win.screen() if (win is not None and win.screen() is not None)
else NSScreen.mainScreen()`. -/
def resolveScreen (e : DisplayEnv) : Option Screen :=
  if e.hasWindow ∧ e.winScreen.isSome then e.winScreen else e.mainScreen

/-- `display_id = self._display_id_for_screen(screen) if screen is not None
else None`. -/
def resolveDisplayId (e : DisplayEnv) : Option ℤ :=
  match resolveScreen e with
  | some sc => sc.displayId
  | none => none

/-- The try-block computing `pixels_per_mm`: `none` when the display id is
unresolvable, a query raises, or a reported value is not positive. -/
def measuredPixelsPerMM (e : DisplayEnv) : Option ℚ :=
  match resolveDisplayId e with
  | none => none
  | some did =>
    match e.sizeQuery did, e.pixelQuery did with
    | some mm_w, some px_w =>
      if mm_w > 0 ∧ px_w > 0 then some (px_w / mm_w) else none
    | some _, none => none
    | none, _ => none

/-- `pixels_per_mm` after the fallback branch. -/
def resolvedPixelsPerMM (e : DisplayEnv) : ℚ :=
  match measuredPixelsPerMM e with
  | some p => p
  | none => FALLBACK_PPI / MM_PER_INCH

/-- `self._error_text` right after the fallback branch for pixels per mm. -/
def physNote (e : DisplayEnv) : Option String :=
  match measuredPixelsPerMM e with
  | some _ => none
  | none => some fallbackNote

/-- The try-block computing `pixels_per_point` from the backing rect:
`none` when the conversion raises or the ratio is not positive. -/
def measuredPixelsPerPoint (e : DisplayEnv) : Option ℚ :=
  match e.backingWidth with
  | some w => if w / 200.0 ≤ 0 then none else some (w / 200.0)
  | none => none

/-- `pixels_per_point` after the fallback branch. -/
def resolvedPixelsPerPoint (e : DisplayEnv) : ℚ :=
  match measuredPixelsPerPoint e with
  | some p => p
  | none => 2.0

/-- `self._error_text` after both fallback branches. -/
def combinedNote (e : DisplayEnv) : Option String :=
  match measuredPixelsPerPoint e with
  | some _ => physNote e
  | none => some ((physNote e).getD "" ++ backingNote)

/-- `content_w = MARGIN_PT * 2.0 + length_pt`. -/
def contentWidth (ppm : ℚ) : ℚ := MARGIN_PT * 2.0 + (RULER_LENGTH_MM : ℚ) * ppm

/-- `recomputeAndResize`: returns the new view state together with the
content size passed to `setContentSize_` (`none` when there is no window). -/
def recomputeAndResize (e : DisplayEnv) (_s : RulerState) :
    RulerState × Option (ℚ × ℚ) :=
  let ppm := resolvedPixelsPerMM e / resolvedPixelsPerPoint e
  let st : RulerState := { points_per_mm := ppm, error_text := combinedNote e }
  (st, if e.hasWindow then some (contentWidth ppm, CONTENT_H_PT) else none)

/-- Division that reports an attempted division by zero as `none`. -/
def safeDiv (a b : ℚ) : Option ℚ := if b = 0 then none else some (a / b)

/-- `measuredPixelsPerMM` with its division checked: outer `none` would mean
a division by zero was attempted. -/
def measuredPixelsPerMMChecked (e : DisplayEnv) : Option (Option ℚ) :=
  match resolveDisplayId e with
  | none => some none
  | some did =>
    match e.sizeQuery did, e.pixelQuery did with
    | some mm_w, some px_w =>
      if mm_w > 0 ∧ px_w > 0 then (safeDiv px_w mm_w).map some else some none
    | some _, none => some none
    | none, _ => some none

/-- `measuredPixelsPerPoint` with its division checked. -/
def measuredPixelsPerPointChecked (e : DisplayEnv) : Option (Option ℚ) :=
  match e.backingWidth with
  | some w => (safeDiv w 200.0).map fun p => if p ≤ 0 then none else some p
  | none => some none

/-- The error note as a function of the two measurement outcomes. -/
def noteFrom (measured pptM : Option ℚ) : Option String :=
  match pptM with
  | some _ => match measured with | some _ => none | none => some fallbackNote
  | none =>
    some ((match measured with
           | some _ => (none : Option String)
           | none => some fallbackNote).getD "" ++ backingNote)

/-- `recomputeAndResize` with every division checked: `none` would mean a
division by zero was attempted somewhere. -/
def recomputeChecked (e : DisplayEnv) (_s : RulerState) :
    Option (RulerState × Option (ℚ × ℚ)) :=
  (measuredPixelsPerMMChecked e).bind fun measured =>
  (measuredPixelsPerPointChecked e).bind fun pptM =>
  (safeDiv (measured.getD (FALLBACK_PPI / MM_PER_INCH)) (pptM.getD 2.0)).map
    fun ppm =>
      ({ points_per_mm := ppm, error_text := noteFrom measured pptM },
       if e.hasWindow then some (contentWidth ppm, CONTENT_H_PT) else none)

/-- `recomputeAndResize` on an environment whose size and pixel queries
both fail. -/
def failQueries (e : DisplayEnv) : DisplayEnv :=
  { e with sizeQuery := fun _ => none, pixelQuery := fun _ => none }

/-- One tick mark: x position and height. -/
structure Tick where
  x : ℚ
  height : ℚ
deriving Repr, DecidableEq

/-- One drawn text label: text, draw point, and measured width. -/
structure Label where
  text : String
  pos_x : ℚ
  pos_y : ℚ
  width : ℚ
deriving Repr, DecidableEq

/-- What `drawRect_` emits: baseline segment, ticks, centimeter labels,
and the optional warning text with its draw point. -/
structure DrawOutput where
  baseline : (ℚ × ℚ) × (ℚ × ℚ)
  ticks : List Tick
  labels : List Label
  warning : Option (String × ℚ × ℚ)
deriving Repr, DecidableEq

/-- Tick height selection in the draw loop. -/
def tickHeightFor (mm : ℕ) : ℚ :=
  if mm % 10 = 0 then TICK_LARGE_PT
  else if mm % 5 = 0 then TICK_MED_PT
  else TICK_SMALL_PT

/-- The horizontal center of a drawn label. -/
def labelCenter (l : Label) : ℚ := l.pos_x + l.width / 2.0

/-- `drawRect_`, as a function of a text-measurement oracle and the view
state; returns the emitted drawing together with the state the view holds
afterwards. -/
def drawRect (measure : String → ℚ × ℚ) (s : RulerState) :
    DrawOutput × RulerState :=
  let length_pt := (RULER_LENGTH_MM : ℚ) * s.points_per_mm
  let x0 := MARGIN_PT
  let x1 := x0 + length_pt
  let y0 := BASELINE_Y_PT
  let ticks := (List.range (RULER_LENGTH_MM + 1)).map fun (mm : ℕ) =>
    ({ x := x0 + (mm : ℚ) * s.points_per_mm, height := tickHeightFor mm } : Tick)
  let labels := (List.range (RULER_LENGTH_MM / 10 + 1)).map fun (cm : ℕ) =>
    let x := x0 + ((cm * 10 : ℕ) : ℚ) * s.points_per_mm
    let sz := measure (toString cm)
    ({ text := toString cm, pos_x := x - sz.1 / 2.0,
       pos_y := y0 - sz.2 - 4.0, width := sz.1 } : Label)
  let warning := match s.error_text with
    | some t => if t = "" then none else some (t, MARGIN_PT, CONTENT_H_PT - 18.0)
    | none => none
  ({ baseline := ((x0, y0), (x1, y0)), ticks := ticks,
     labels := labels, warning := warning }, s)

theorem measuredPixelsPerPoint_pos (e : DisplayEnv) (p : ℚ)
    (h : measuredPixelsPerPoint e = some p) : 0 < p := by
  rcases hb : e.backingWidth with _ | w
  · simp [measuredPixelsPerPoint, hb] at h
  · by_cases hc : w / 200.0 ≤ 0
    · simp [measuredPixelsPerPoint, hb, hc] at h
    · simp [measuredPixelsPerPoint, hb, hc] at h
      exact h ▸ lt_of_not_le hc

theorem resolvedPixelsPerPoint_pos (e : DisplayEnv) :
    0 < resolvedPixelsPerPoint e := by
  unfold resolvedPixelsPerPoint
  cases hp : measuredPixelsPerPoint e with
  | none => norm_num
  | some p => exact measuredPixelsPerPoint_pos e p hp

theorem resolvedPixelsPerMM_eq_getD (e : DisplayEnv) :
    resolvedPixelsPerMM e =
      (measuredPixelsPerMM e).getD (FALLBACK_PPI / MM_PER_INCH) := by
  unfold resolvedPixelsPerMM
  cases measuredPixelsPerMM e <;> rfl

theorem resolvedPixelsPerPoint_eq_getD (e : DisplayEnv) :
    resolvedPixelsPerPoint e = (measuredPixelsPerPoint e).getD 2.0 := by
  unfold resolvedPixelsPerPoint
  cases measuredPixelsPerPoint e <;> rfl

theorem combinedNote_eq (e : DisplayEnv) :
    combinedNote e = noteFrom (measuredPixelsPerMM e) (measuredPixelsPerPoint e) := by
  unfold combinedNote noteFrom physNote
  cases measuredPixelsPerPoint e <;> cases measuredPixelsPerMM e <;> rfl

theorem measuredPixelsPerMMChecked_eq (e : DisplayEnv) :
    measuredPixelsPerMMChecked e = some (measuredPixelsPerMM e) := by
  rcases hd : resolveDisplayId e with _ | did
  · simp [measuredPixelsPerMMChecked, measuredPixelsPerMM, hd]
  · rcases hs : e.sizeQuery did with _ | mm_w
    · simp [measuredPixelsPerMMChecked, measuredPixelsPerMM, hd, hs]
    · rcases hp : e.pixelQuery did with _ | px_w
      · simp [measuredPixelsPerMMChecked, measuredPixelsPerMM, hd, hs, hp]
      · by_cases hc : mm_w > 0 ∧ px_w > 0
        · simp [measuredPixelsPerMMChecked, measuredPixelsPerMM, hd, hs, hp, hc,
                safeDiv, ne_of_gt hc.1]
        · simp [measuredPixelsPerMMChecked, measuredPixelsPerMM, hd, hs, hp, hc]

theorem measuredPixelsPerPointChecked_eq (e : DisplayEnv) :
    measuredPixelsPerPointChecked e = some (measuredPixelsPerPoint e) := by
  rcases hb : e.backingWidth with _ | w
  · simp [measuredPixelsPerPointChecked, measuredPixelsPerPoint, hb]
  · simp only [measuredPixelsPerPointChecked, measuredPixelsPerPoint, hb, safeDiv]
    rw [if_neg (by norm_num : ¬(200.0 : ℚ) = 0), Option.map_some']

theorem recomputeChecked_eq (e : DisplayEnv) (s : RulerState) :
    recomputeChecked e s = some (recomputeAndResize e s) := by
  unfold recomputeChecked recomputeAndResize
  rw [measuredPixelsPerMMChecked_eq, measuredPixelsPerPointChecked_eq]
  simp only [Option.some_bind]
  rw [← resolvedPixelsPerMM_eq_getD, ← resolvedPixelsPerPoint_eq_getD,
      ← combinedNote_eq]
  simp only [safeDiv, if_neg (ne_of_gt (resolvedPixelsPerPoint_pos e)),
             Option.map_some']

/-- Environment in which every query succeeds (the spec's end-to-end
example: 300 mm wide, 3000 px wide, backing ratio 2.0). -/
def goodEnv : DisplayEnv :=
  { hasWindow := true, winScreen := some { displayId := some 1 },
    mainScreen := some { displayId := some 1 },
    sizeQuery := fun _ => some 300, pixelQuery := fun _ => some 3000,
    backingWidth := some 400 }

/-- Environment in which the physical-size query raises. -/
def noPhysEnv : DisplayEnv :=
  { hasWindow := true, winScreen := some { displayId := some 1 },
    mainScreen := none, sizeQuery := fun _ => none,
    pixelQuery := fun _ => some 3000, backingWidth := some 400 }

/-- Environment in which both the physical-size query and the backing
conversion fail. -/
def doubleFailEnv : DisplayEnv :=
  { hasWindow := true, winScreen := some { displayId := some 1 },
    mainScreen := none, sizeQuery := fun _ => none,
    pixelQuery := fun _ => none, backingWidth := none }

/-- C1: when the display id resolves and the physical-width, pixel-width and
backing-scale queries all succeed with positive values, the resolved scale
equals (pixel_width / physical_width_mm) / units_per_pixel exactly, and the
resulting state is not degraded (no note). -/
theorem C1_exact_scale (e : DisplayEnv) (s : RulerState) (did : ℤ)
    (mm_w px_w bw : ℚ)
    (hdid : resolveDisplayId e = some did)
    (hsz : e.sizeQuery did = some mm_w) (hmm : 0 < mm_w)
    (hpx : e.pixelQuery did = some px_w) (hpxp : 0 < px_w)
    (hbw : e.backingWidth = some bw) (hup : 0 < bw / 200.0) :
    (recomputeAndResize e s).1.points_per_mm = (px_w / mm_w) / (bw / 200.0) ∧
    degraded (recomputeAndResize e s).1 = false := by
  have hm : measuredPixelsPerMM e = some (px_w / mm_w) := by
    simp [measuredPixelsPerMM, hdid, hsz, hpx, hmm, hpxp]
  have hp : measuredPixelsPerPoint e = some (bw / 200.0) := by
    simp [measuredPixelsPerPoint, hbw, not_le.mpr hup]
  constructor
  · simp [recomputeAndResize, resolvedPixelsPerMM, resolvedPixelsPerPoint, hm, hp]
  · simp [recomputeAndResize, degraded, combinedNote, hp, physNote, hm]

/-- Witness for C1 at the spec's end-to-end example. -/
theorem C1_exact_scale_witness :
    (recomputeAndResize goodEnv initWithFrame).1.points_per_mm =
      ((3000 : ℚ) / 300) / (400 / 200.0) ∧
    degraded (recomputeAndResize goodEnv initWithFrame).1 = false :=
  C1_exact_scale goodEnv initWithFrame 1 300 3000 400 rfl rfl (by norm_num) rfl
    (by norm_num) rfl (by norm_num)

/-- C2: whenever the display id is unresolvable, a physical query fails, or a
reported width is not positive, the resolver uses pixels_per_mm =
FALLBACK_PPI / MM_PER_INCH, which is exactly 10, and the resulting state is
degraded with a non-empty note. -/
theorem C2_density_fallback (e : DisplayEnv) (s : RulerState)
    (h : resolveDisplayId e = none ∨
      ∃ did, resolveDisplayId e = some did ∧
        (e.sizeQuery did = none ∨ e.pixelQuery did = none ∨
          ∃ mm_w px_w, e.sizeQuery did = some mm_w ∧
            e.pixelQuery did = some px_w ∧ (mm_w ≤ 0 ∨ px_w ≤ 0))) :
    resolvedPixelsPerMM e = FALLBACK_PPI / MM_PER_INCH ∧
    FALLBACK_PPI / MM_PER_INCH = 10 ∧
    degraded (recomputeAndResize e s).1 = true ∧
    ∃ t, (recomputeAndResize e s).1.error_text = some t ∧ t ≠ "" := by
  have hm : measuredPixelsPerMM e = none := by
    rcases h with hd | ⟨did, hd, hq⟩
    · simp [measuredPixelsPerMM, hd]
    · rcases hq with hs | hs | ⟨mm_w, px_w, hs, hp, hnp⟩
      · simp [measuredPixelsPerMM, hd, hs]
      · rcases hsz : e.sizeQuery did with _ | mm_w
        · simp [measuredPixelsPerMM, hd, hsz]
        · simp [measuredPixelsPerMM, hd, hsz, hs]
      · have hng : ¬(mm_w > 0 ∧ px_w > 0) := by
          rcases hnp with h1 | h1
          · exact fun hc => absurd hc.1 (not_lt.mpr h1)
          · exact fun hc => absurd hc.2 (not_lt.mpr h1)
        simp [measuredPixelsPerMM, hd, hs, hp, hng]
  refine ⟨?_, ?_, ?_, ?_⟩
  · simp [resolvedPixelsPerMM, hm]
  · norm_num [FALLBACK_PPI, MM_PER_INCH]
  · rcases hpp : measuredPixelsPerPoint e with _ | p
    · simp [recomputeAndResize, degraded, combinedNote, hpp, physNote, hm]
    · simp [recomputeAndResize, degraded, combinedNote, hpp, physNote, hm]
  · rcases hpp : measuredPixelsPerPoint e with _ | p
    · exact ⟨fallbackNote ++ backingNote,
        by simp [recomputeAndResize, combinedNote, hpp, physNote, hm],
        by decide⟩
    · exact ⟨fallbackNote,
        by simp [recomputeAndResize, combinedNote, hpp, physNote, hm],
        by decide⟩

/-- Witness for C2: the physical-size query raises. -/
theorem C2_density_fallback_witness :
    resolvedPixelsPerMM noPhysEnv = FALLBACK_PPI / MM_PER_INCH ∧
    FALLBACK_PPI / MM_PER_INCH = 10 ∧
    degraded (recomputeAndResize noPhysEnv initWithFrame).1 = true ∧
    ∃ t, (recomputeAndResize noPhysEnv initWithFrame).1.error_text = some t ∧
      t ≠ "" :=
  C2_density_fallback noPhysEnv initWithFrame (Or.inr ⟨1, rfl, Or.inl rfl⟩)

/-- C3: whenever the backing conversion fails or yields a non-positive
ratio, the resolver uses pixels_per_point = 2.0 and appends the second
degradation note to whatever note was already present; in particular when
the physical fallback also occurred, both notes are present in the one
state. -/
theorem C3_backing_fallback (e : DisplayEnv) (s : RulerState)
    (h : e.backingWidth = none ∨
      ∃ w, e.backingWidth = some w ∧ w / 200.0 ≤ 0) :
    resolvedPixelsPerPoint e = 2.0 ∧
    (recomputeAndResize e s).1.error_text =
      some ((physNote e).getD "" ++ backingNote) ∧
    (measuredPixelsPerMM e = none →
      (recomputeAndResize e s).1.error_text =
        some (fallbackNote ++ backingNote)) := by
  have hp : measuredPixelsPerPoint e = none := by
    rcases h with hb | ⟨w, hb, hw⟩
    · simp [measuredPixelsPerPoint, hb]
    · simp [measuredPixelsPerPoint, hb, hw]
  refine ⟨?_, ?_, ?_⟩
  · simp [resolvedPixelsPerPoint, hp]
  · simp [recomputeAndResize, combinedNote, hp]
  · intro hm
    simp [recomputeAndResize, combinedNote, hp, physNote, hm]

/-- Witness for C3: both the physical query and the backing conversion
fail, so the final note is the concatenation of the two notes. -/
theorem C3_backing_fallback_witness :
    resolvedPixelsPerPoint doubleFailEnv = 2.0 ∧
    (recomputeAndResize doubleFailEnv initWithFrame).1.error_text =
      some ((physNote doubleFailEnv).getD "" ++ backingNote) ∧
    (measuredPixelsPerMM doubleFailEnv = none →
      (recomputeAndResize doubleFailEnv initWithFrame).1.error_text =
        some (fallbackNote ++ backingNote)) :=
  C3_backing_fallback doubleFailEnv initWithFrame (Or.inl rfl)

/-- Environment reporting a physical width of exactly zero. -/
def zeroWidthEnv : DisplayEnv :=
  { hasWindow := true, winScreen := some { displayId := some 1 },
    mainScreen := none, sizeQuery := fun _ => some 0,
    pixelQuery := fun _ => some 3000, backingWidth := some 400 }

/-- Environment with no window at all. -/
def noWindowEnv : DisplayEnv :=
  { hasWindow := false, winScreen := none,
    mainScreen := some { displayId := some 7 },
    sizeQuery := fun _ => some 300, pixelQuery := fun _ => some 3000,
    backingWidth := some 400 }

/-- C4: a reported physical width or pixel width of exactly zero causes no
division by zero (the division-checked evaluation succeeds) and the resolver
behaves exactly as if both physical queries had failed. -/
theorem C4_zero_no_div (e : DisplayEnv) (s : RulerState) (did : ℤ)
    (mm_w px_w : ℚ)
    (hdid : resolveDisplayId e = some did)
    (hsz : e.sizeQuery did = some mm_w) (hpx : e.pixelQuery did = some px_w)
    (hzero : mm_w = 0 ∨ px_w = 0) :
    recomputeChecked e s = some (recomputeAndResize e s) ∧
    recomputeAndResize e s = recomputeAndResize (failQueries e) s := by
  have hng : ¬(mm_w > 0 ∧ px_w > 0) := by
    rcases hzero with h0 | h0
    · subst h0; exact fun hc => lt_irrefl 0 hc.1
    · subst h0; exact fun hc => lt_irrefl 0 hc.2
  have hm : measuredPixelsPerMM e = none := by
    simp [measuredPixelsPerMM, hdid, hsz, hpx, hng]
  have hqs : ∀ i, (failQueries e).sizeQuery i = none := fun _ => rfl
  have hmf : measuredPixelsPerMM (failQueries e) = none := by
    rcases hfd : resolveDisplayId (failQueries e) with _ | did2
    · simp [measuredPixelsPerMM, hfd]
    · simp [measuredPixelsPerMM, hfd, hqs]
  have hpp : measuredPixelsPerPoint (failQueries e) = measuredPixelsPerPoint e :=
    rfl
  have hhw : (failQueries e).hasWindow = e.hasWindow := rfl
  refine ⟨recomputeChecked_eq e s, ?_⟩
  simp [recomputeAndResize, resolvedPixelsPerMM, resolvedPixelsPerPoint,
        combinedNote, physNote, hm, hmf, hpp, hhw]

/-- Witness for C4: physical width reported as exactly zero. -/
theorem C4_zero_no_div_witness :
    recomputeChecked zeroWidthEnv initWithFrame =
      some (recomputeAndResize zeroWidthEnv initWithFrame) ∧
    recomputeAndResize zeroWidthEnv initWithFrame =
      recomputeAndResize (failQueries zeroWidthEnv) initWithFrame :=
  C4_zero_no_div zeroWidthEnv initWithFrame 1 0 3000 rfl rfl rfl (Or.inl rfl)

/-- C5: recomputeAndResize is idempotent — rerunning it with the display
context unchanged, starting from the state the first run produced, yields
the same state and the same requested content size. -/
theorem C5_idempotent (e : DisplayEnv) (s : RulerState) :
    recomputeAndResize e (recomputeAndResize e s).1 = recomputeAndResize e s :=
  rfl

/-- C6: the requested content width is 2*20 + 150*units_per_mm (790 when
units_per_mm = 5), and the tick at each millimeter mm ≤ 150 sits at
margin + mm*units_per_mm with height tier tall at multiples of 10, medium at
multiples of 5 that are not of 10, short otherwise. -/
theorem C6_geometry (e : DisplayEnv) (s : RulerState) (m : String → ℚ × ℚ)
    (mm : ℕ) (hw : e.hasWindow = true) (hmm : mm ≤ RULER_LENGTH_MM) :
    (recomputeAndResize e s).2 =
      some (2 * 20.0 + 150 * (recomputeAndResize e s).1.points_per_mm,
            CONTENT_H_PT) ∧
    contentWidth 5.0 = 790 ∧
    (drawRect m s).1.ticks.length = 151 ∧
    ((drawRect m s).1.ticks[mm]?) =
      some { x := MARGIN_PT + (mm : ℚ) * s.points_per_mm,
             height := if 10 ∣ mm then TICK_LARGE_PT
                       else if 5 ∣ mm then TICK_MED_PT else TICK_SMALL_PT } := by
  have hlt : mm < 151 := by
    have := Nat.lt_succ_of_le hmm
    simpa [RULER_LENGTH_MM] using this
  refine ⟨?_, by norm_num [contentWidth, MARGIN_PT, RULER_LENGTH_MM], ?_, ?_⟩
  · simp only [recomputeAndResize, hw, if_true, contentWidth, MARGIN_PT,
               RULER_LENGTH_MM]
    norm_num
  · simp [drawRect, RULER_LENGTH_MM]
  · have hget : ((drawRect m s).1.ticks[mm]?) =
        some { x := MARGIN_PT + (mm : ℚ) * s.points_per_mm,
               height := tickHeightFor mm } := by
      simp [drawRect, List.getElem?_map, List.getElem?_range, hlt,
            RULER_LENGTH_MM]
    rw [hget]
    simp [tickHeightFor, Nat.dvd_iff_mod_eq_zero]

/-- Witness for C6 at mm = 30 (tall), 25 (medium) and 27 (short). -/
theorem C6_geometry_witness :
    ((recomputeAndResize goodEnv initWithFrame).2 =
      some (2 * 20.0 +
              150 * (recomputeAndResize goodEnv initWithFrame).1.points_per_mm,
            CONTENT_H_PT) ∧
     contentWidth 5.0 = 790 ∧
     (drawRect (fun _ => (7, 12)) initWithFrame).1.ticks.length = 151 ∧
     ((drawRect (fun _ => (7, 12)) initWithFrame).1.ticks[30]?) =
       some { x := MARGIN_PT + (30 : ℚ) * initWithFrame.points_per_mm,
              height := if 10 ∣ 30 then TICK_LARGE_PT
                        else if 5 ∣ 30 then TICK_MED_PT else TICK_SMALL_PT }) ∧
    ((drawRect (fun _ => (7, 12)) initWithFrame).1.ticks[25]?) =
      some { x := MARGIN_PT + (25 : ℚ) * initWithFrame.points_per_mm,
             height := if 10 ∣ 25 then TICK_LARGE_PT
                       else if 5 ∣ 25 then TICK_MED_PT else TICK_SMALL_PT } ∧
    ((drawRect (fun _ => (7, 12)) initWithFrame).1.ticks[27]?) =
      some { x := MARGIN_PT + (27 : ℚ) * initWithFrame.points_per_mm,
             height := if 10 ∣ 27 then TICK_LARGE_PT
                       else if 5 ∣ 27 then TICK_MED_PT else TICK_SMALL_PT } :=
  ⟨C6_geometry goodEnv initWithFrame (fun _ => (7, 12)) 30 rfl (by decide),
   (C6_geometry goodEnv initWithFrame (fun _ => (7, 12)) 25 rfl (by decide)).2.2.2,
   (C6_geometry goodEnv initWithFrame (fun _ => (7, 12)) 27 rfl (by decide)).2.2.2⟩

/-- C7: for each centimeter index n < 16 the drawn label has text n and is
horizontally centered at margin + n*10*units_per_mm, and exactly 16 labels
are drawn. -/
theorem C7_labels (s : RulerState) (m : String → ℚ × ℚ) (n : ℕ) (hn : n < 16) :
    (drawRect m s).1.labels.length = 16 ∧
    ∃ l, ((drawRect m s).1.labels[n]?) = some l ∧ l.text = toString n ∧
      labelCenter l = MARGIN_PT + (n : ℚ) * 10 * s.points_per_mm := by
  have hn2 : n < RULER_LENGTH_MM / 10 + 1 := by
    simpa [RULER_LENGTH_MM] using hn
  refine ⟨by simp [drawRect, RULER_LENGTH_MM],
    ⟨{ text := toString n,
       pos_x := MARGIN_PT + ((n * 10 : ℕ) : ℚ) * s.points_per_mm -
         (m (toString n)).1 / 2.0,
       pos_y := BASELINE_Y_PT - (m (toString n)).2 - 4.0,
       width := (m (toString n)).1 }, ?_, rfl, ?_⟩⟩
  · simp [drawRect, List.getElem?_map, List.getElem?_range, hn2]
  · simp only [labelCenter]
    push_cast
    ring

/-- Witness for C7 at n = 3. -/
theorem C7_labels_witness :
    (drawRect (fun _ => (7, 12)) initWithFrame).1.labels.length = 16 ∧
    ∃ l, ((drawRect (fun _ => (7, 12)) initWithFrame).1.labels[3]?) = some l ∧
      l.text = toString 3 ∧
      labelCenter l = MARGIN_PT + (3 : ℚ) * 10 * initWithFrame.points_per_mm :=
  C7_labels initWithFrame (fun _ => (7, 12)) 3 (by decide)

/-- C8: drawing is a pure read of the view state — after drawRect the view
holds exactly the state it held before. -/
theorem C8_draw_pure (s : RulerState) (m : String → ℚ × ℚ) :
    (drawRect m s).2 = s :=
  rfl

/-- C9: when the view has no window, or the window is on no screen, metrics
resolution proceeds against the main screen: the screen used is the main
screen, and the resulting ScaleState is the one obtained with the main
screen attached as the window's screen. -/
theorem C9_main_screen (e : DisplayEnv) (s : RulerState)
    (h : e.hasWindow = false ∨ e.winScreen = none) :
    resolveScreen e = e.mainScreen ∧
    (recomputeAndResize e s).1 =
      (recomputeAndResize
        { e with hasWindow := true, winScreen := e.mainScreen } s).1 := by
  have hsc : resolveScreen e = e.mainScreen := by
    rcases h with h0 | h0
    · simp [resolveScreen, h0]
    · simp [resolveScreen, h0]
  have hsc2 : resolveScreen
      { e with hasWindow := true, winScreen := e.mainScreen } = e.mainScreen := by
    rcases hm : e.mainScreen with _ | sc
    · simp [resolveScreen, hm]
    · simp [resolveScreen, hm]
  have hid : resolveDisplayId
      { e with hasWindow := true, winScreen := e.mainScreen } =
      resolveDisplayId e := by
    unfold resolveDisplayId
    rw [hsc, hsc2]
  have hmm : measuredPixelsPerMM
      { e with hasWindow := true, winScreen := e.mainScreen } =
      measuredPixelsPerMM e := by
    unfold measuredPixelsPerMM
    rw [hid]
  have hpp : measuredPixelsPerPoint
      { e with hasWindow := true, winScreen := e.mainScreen } =
      measuredPixelsPerPoint e := rfl
  refine ⟨hsc, ?_⟩
  simp [recomputeAndResize, resolvedPixelsPerMM, resolvedPixelsPerPoint,
        combinedNote, physNote, hmm, hpp]

/-- Witness for C9: a view with no window. -/
theorem C9_main_screen_witness :
    resolveScreen noWindowEnv = noWindowEnv.mainScreen ∧
    (recomputeAndResize noWindowEnv initWithFrame).1 =
      (recomputeAndResize
        { noWindowEnv with hasWindow := true,
                           winScreen := noWindowEnv.mainScreen }
        initWithFrame).1 :=
  C9_main_screen noWindowEnv initWithFrame (Or.inl rfl)

/-- C10: a freshly initialized view already holds units_per_mm = 5 with no
note, and drawing from that state yields a complete non-degraded ruler:
151 ticks, 16 labels and no warning text, for any text-measurement oracle. -/
theorem C10_fresh_state (m : String → ℚ × ℚ) :
    initWithFrame.points_per_mm = 5.0 ∧
    initWithFrame.error_text = none ∧
    degraded initWithFrame = false ∧
    (drawRect m initWithFrame).1.warning = none ∧
    (drawRect m initWithFrame).1.ticks.length = 151 ∧
    (drawRect m initWithFrame).1.labels.length = 16 := by
  refine ⟨rfl, rfl, rfl, ?_, ?_, ?_⟩ <;>
    simp [drawRect, initWithFrame, RULER_LENGTH_MM]
